import Mathlib

/-!
Shallow embedding of the abalone age predictor page (src/streamlit_app.py)
and of the validation rule set described by the design document. Python
float values are modelled as rationals; the predict button handler is a
function from the input record and an arbitrary external model to an
outcome; the Python ZeroDivisionError of the unguarded percentage lines is
modelled by an Option result.
-/

namespace Abalone

/-- Measurement record: the seven raw slider inputs of the page, lengths in
millimetres and weights in grams, each slider starting at 0. -/
structure Record where
  length : ℚ
  diameter : ℚ
  height : ℚ
  whole_weight : ℚ
  shucked_weight : ℚ
  viscera_weight : ℚ
  shell_weight : ℚ
  deriving DecidableEq, Repr

/-- Epsilon guard of the page, the literal 1e-8 added to whole_weight before
dividing (lines 93 to 94) and to the dimension product in the density rule. -/
def eps : ℚ := 1 / 100000000

/-- Validation test at line 88 of streamlit_app.py:
length == 0 and diameter == 0 and height == 0 and whole_weight == 0. -/
def allZeroCheck (r : Record) : Bool :=
  r.length == 0 && r.diameter == 0 && r.height == 0 && r.whole_weight == 0

/-- Feature computation at lines 93 to 94 of streamlit_app.py: the pair of
derived columns, first shell_weight / (whole_weight + 1e-8), then
shucked_weight / (whole_weight + 1e-8). -/
def build_features (r : Record) : ℚ × ℚ :=
  (r.shell_weight / (r.whole_weight + eps), r.shucked_weight / (r.whole_weight + eps))

/-- Outcome of pressing the predict button: either the invalid input error
branch of lines 89 to 90, or a prediction produced at line 110. -/
inductive Outcome where
  | invalidInput : Outcome
  | predicted : ℚ → Outcome
  deriving DecidableEq, Repr

/-- Predict button handler, lines 85 to 111 of streamlit_app.py. The external
model is an arbitrary function of the raw record and the two derived features;
the handler evaluates it only in the else branch of the all-zero test. -/
def runPredictHandler (model : Record → ℚ × ℚ → ℚ) (r : Record) : Outcome :=
  if allZeroCheck r then Outcome.invalidInput
  else Outcome.predicted (model r (build_features r))

/-- Line 111: estimated_age = y_pred + 1.5. -/
def estimated_age (y_pred : ℚ) : ℚ := y_pred + 1.5

/-- Lines 133 to 141: the life stage label branch. -/
def lifeStage (age : ℚ) : String :=
  if age < 7 then "Young"
  else if age < 12 then "Adult"
  else "Mature"

/-- Lines 262 to 263: the weight summary percentages, shucked and shell weight
each divided by whole_weight and scaled by 100, with no guard. Python float
division raises ZeroDivisionError when the denominator is zero; that error is
modelled by returning none. -/
def weightSummaryPercents (r : Record) : Option (ℚ × ℚ) :=
  if r.whole_weight = 0 then none
  else some (r.shucked_weight / r.whole_weight * 100, r.shell_weight / r.whole_weight * 100)

/-- Line 268: meat_percentage, computed only when whole_weight is positive and
0 otherwise. -/
def meat_percentage (r : Record) : ℚ :=
  if r.whole_weight > 0 then r.shucked_weight / r.whole_weight * 100 else 0

/-- Blocking message of invariant 1, the all-zero gate. -/
def allZeroMsg : String := "all measurements are zero"

/-- Blocking message of invariant 2 for the shucked weight. -/
def shuckedMsg : String := "shucked weight exceeds whole weight"

/-- Blocking message of invariant 2 for the viscera weight. -/
def visceraMsg : String := "viscera weight exceeds whole weight"

/-- Blocking message of invariant 2 for the shell weight. -/
def shellMsg : String := "shell weight exceeds whole weight"

/-- Blocking message of invariant 3, the part weight sum rule. -/
def partSumMsg : String := "sum of part weights exceeds whole weight"

/-- Blocking message of invariant 4, a zero dimension with positive mass. -/
def zeroDimMsg : String := "zero dimension with positive whole weight"

/-- Blocking message of the hard density ceiling of invariant 6. -/
def densityHardMsg : String := "density exceeds hard ceiling"

/-- Advisory message of invariant 5 for the diameter. -/
def diameterWarnMsg : String := "diameter exceeds length"

/-- Advisory message of invariant 5 for the height. -/
def heightWarnMsg : String := "height exceeds diameter"

/-- Advisory message of the soft density ceiling of invariant 6. -/
def densitySoftMsg : String := "density exceeds soft ceiling"

/-- Modelled from the spec: the validate operation of the later page revisions,
which are not under src (src holds only streamlit_app.py, whose sole check is
the all-zero gate). Invariant 1, the all-zero check, is an immediate terminal
condition with no further rule evaluated; otherwise invariants 2, 3, 4 and the
hard density ceiling of invariant 6 contribute blocking errors, and invariant 5
and the soft density ceiling contribute advisory warnings, all collected in
order without short-circuiting. -/
def validate (r : Record) : List String × List String :=
  if r.length = 0 ∧ r.diameter = 0 ∧ r.height = 0 ∧ r.whole_weight = 0 then
    ([allZeroMsg], [])
  else
    let density := r.whole_weight / (r.length * r.diameter * r.height + eps)
    let errs :=
      (if r.shucked_weight > r.whole_weight then [shuckedMsg] else []) ++
      (if r.viscera_weight > r.whole_weight then [visceraMsg] else []) ++
      (if r.shell_weight > r.whole_weight then [shellMsg] else []) ++
      (if r.shucked_weight + r.viscera_weight + r.shell_weight > r.whole_weight then
        [partSumMsg] else []) ++
      (if (r.length = 0 ∨ r.diameter = 0 ∨ r.height = 0) ∧ 0 < r.whole_weight then
        [zeroDimMsg] else []) ++
      (if density > 400 then [densityHardMsg] else [])
    let warns :=
      (if r.diameter > r.length then [diameterWarnMsg] else []) ++
      (if r.height > r.diameter then [heightWarnMsg] else []) ++
      (if density > 200 ∧ ¬density > 400 then [densitySoftMsg] else [])
    (errs, warns)

/-- Modelled from the spec: errors are blocking, so the caller proceeds to
inference exactly when validate returns no error. -/
def proceedsToInference (r : Record) : Bool :=
  ((validate r).1).isEmpty

/-- Constant external model used by concrete witnesses: always predicts 10. -/
def constModel : Record → ℚ × ℚ → ℚ := fun _ _ => 10

/-- All slider values zero except positive part weights, so that every weight
rule would fire if it were evaluated after the all-zero gate. -/
def allZeroRecord : Record := ⟨0, 0, 0, 0, 1, 1, 1⟩

/-- All of length, diameter, height and whole weight zero, shucked weight 1. -/
def shuckedAllZeroRecord : Record := ⟨0, 0, 0, 0, 1, 0, 0⟩

/-- Shucked weight 1 above whole weight one half, dimensions nonzero. -/
def shuckedHeavyRecord : Record := ⟨1/2, 2/5, 3/20, 1/2, 1, 0, 0⟩

/-- Part weights one half, two fifths and three tenths: each at most the whole
weight 1, but summing to six fifths above it. -/
def partSumRecord : Record := ⟨1/2, 2/5, 3/20, 1, 1/2, 2/5, 3/10⟩

/-- Rejection example of the design document: length 0, diameter 0.4, height
0.15, whole weight 0.8, with the default part weights. -/
def zeroLengthRecord : Record := ⟨0, 2/5, 3/20, 4/5, 7/20, 9/50, 6/25⟩

/-- Record with whole weight exactly 0 and nonzero dimensions. -/
def zeroWholeRecord : Record := ⟨1/2, 2/5, 3/20, 0, 7/20, 9/50, 6/25⟩

/-- Record whose only nonzero field is length one half: it passes the all-zero
check and reaches the weight summary with whole_weight 0. -/
def lengthOnlyRecord : Record := ⟨1/2, 0, 0, 0, 0, 0, 0⟩

/-- End to end example record of the design document. -/
def exampleRecord : Record := ⟨1/2, 2/5, 3/20, 4/5, 7/20, 9/50, 6/25⟩

/-- The example record with length changed to nine tenths: agrees with
exampleRecord on the three weight fields the features read. -/
def exampleRecordLong : Record := ⟨9/10, 2/5, 3/20, 4/5, 7/20, 9/50, 6/25⟩

/-- Record violating invariants 2, 3 and 4 at once while not all-zero: length
0 with whole weight one half, and shucked weight 1 above the whole weight. -/
def multiViolationRecord : Record := ⟨0, 2/5, 3/20, 1/2, 1, 0, 0⟩

/-- Helper: a nonempty error list blocks inference. -/
theorem errors_block (r : Record) (hne : (validate r).1 ≠ []) :
    proceedsToInference r = false := by
  unfold proceedsToInference
  cases hv : (validate r).1 with
  | nil => exact absurd hv hne
  | cons a l => simp

/-- C1: for a record with length, diameter, height and whole weight all zero,
the predict button handler takes the error branch for every possible model, so
predict is never invoked, and the spec-modelled validate returns the single
all-zero blocking error with no further rule evaluated and no warning. -/
theorem C1_all_zero_terminal_gate (m : Record → ℚ × ℚ → ℚ) (r : Record)
    (h : r.length = 0 ∧ r.diameter = 0 ∧ r.height = 0 ∧ r.whole_weight = 0) :
    runPredictHandler m r = Outcome.invalidInput ∧ validate r = ([allZeroMsg], []) := by
  obtain ⟨h1, h2, h3, h4⟩ := h
  constructor
  · simp [runPredictHandler, allZeroCheck, h1, h2, h3, h4]
  · simp [validate, h1, h2, h3, h4]

/-- Witness for C1 at the all-zero record whose part weights are all 1, so that
every weight rule would have fired had any further rule been evaluated. -/
theorem C1_all_zero_terminal_gate_witness :
    allZeroRecord.length = 0 ∧ allZeroRecord.diameter = 0 ∧ allZeroRecord.height = 0 ∧
      allZeroRecord.whole_weight = 0 ∧
    runPredictHandler constModel allZeroRecord = Outcome.invalidInput ∧
    validate allZeroRecord = ([allZeroMsg], []) := by
  refine ⟨rfl, rfl, rfl, rfl, ?_, ?_⟩
  · exact (C1_all_zero_terminal_gate constModel allZeroRecord ⟨rfl, rfl, rfl, rfl⟩).1
  · exact (C1_all_zero_terminal_gate constModel allZeroRecord ⟨rfl, rfl, rfl, rfl⟩).2

/-- C2 counterexample: the record with length, diameter, height and whole
weight all zero and shucked weight 1 has shucked weight above whole weight, yet
validate returns only the all-zero message: no shucked/whole message appears. -/
theorem C2_counterexample :
    shuckedAllZeroRecord.shucked_weight > shuckedAllZeroRecord.whole_weight ∧
    validate shuckedAllZeroRecord = ([allZeroMsg], []) ∧
    shuckedMsg ∉ (validate shuckedAllZeroRecord).1 := by
  refine ⟨by norm_num [shuckedAllZeroRecord], by simp [validate, shuckedAllZeroRecord], ?_⟩
  simp [validate, shuckedAllZeroRecord, shuckedMsg, allZeroMsg]

/-- C2 amended: for a record whose shucked weight exceeds its whole weight and
which does not trigger the all-zero terminal gate, validate returns a blocking
error list that contains the shucked/whole message, and inference does not
proceed. -/
theorem C2_shucked_exceeds_whole_blocks (r : Record)
    (hgt : r.shucked_weight > r.whole_weight)
    (hnz : ¬(r.length = 0 ∧ r.diameter = 0 ∧ r.height = 0 ∧ r.whole_weight = 0)) :
    shuckedMsg ∈ (validate r).1 ∧ (validate r).1 ≠ [] ∧ proceedsToInference r = false := by
  have hmem : shuckedMsg ∈ (validate r).1 := by
    simp [validate, hnz, hgt]
  exact ⟨hmem, List.ne_nil_of_mem hmem, errors_block r (List.ne_nil_of_mem hmem)⟩

/-- Witness for the amended C2 at the record with shucked weight 1 and whole
weight one half. -/
theorem C2_shucked_exceeds_whole_blocks_witness :
    shuckedHeavyRecord.shucked_weight > shuckedHeavyRecord.whole_weight ∧
    ¬(shuckedHeavyRecord.length = 0 ∧ shuckedHeavyRecord.diameter = 0 ∧
      shuckedHeavyRecord.height = 0 ∧ shuckedHeavyRecord.whole_weight = 0) ∧
    (shuckedMsg ∈ (validate shuckedHeavyRecord).1 ∧ (validate shuckedHeavyRecord).1 ≠ [] ∧
      proceedsToInference shuckedHeavyRecord = false) := by
  have h1 : shuckedHeavyRecord.shucked_weight > shuckedHeavyRecord.whole_weight := by
    norm_num [shuckedHeavyRecord]
  have h2 : ¬(shuckedHeavyRecord.length = 0 ∧ shuckedHeavyRecord.diameter = 0 ∧
      shuckedHeavyRecord.height = 0 ∧ shuckedHeavyRecord.whole_weight = 0) := by
    norm_num [shuckedHeavyRecord]
  exact ⟨h1, h2, C2_shucked_exceeds_whole_blocks shuckedHeavyRecord h1 h2⟩

/-- C3: whenever the three part weights sum to more than the whole weight,
validate returns a nonempty blocking error list and inference does not proceed,
whether the all-zero gate fires first or the part-sum rule is collected. -/
theorem C3_part_sum_blocks (r : Record)
    (h : r.shucked_weight + r.viscera_weight + r.shell_weight > r.whole_weight) :
    (validate r).1 ≠ [] ∧ proceedsToInference r = false := by
  have hne : (validate r).1 ≠ [] := by
    by_cases hz : r.length = 0 ∧ r.diameter = 0 ∧ r.height = 0 ∧ r.whole_weight = 0
    · simp [validate, hz]
    · exact List.ne_nil_of_mem (a := partSumMsg) (by simp [validate, hz, h])
  exact ⟨hne, errors_block r hne⟩

/-- Witness for C3 at a record whose part weights are each at most the whole
weight 1 but sum to six fifths: no single part exceeds the whole, yet the
record is blocked. -/
theorem C3_part_sum_blocks_witness :
    partSumRecord.shucked_weight + partSumRecord.viscera_weight + partSumRecord.shell_weight >
      partSumRecord.whole_weight ∧
    partSumRecord.shucked_weight ≤ partSumRecord.whole_weight ∧
    partSumRecord.viscera_weight ≤ partSumRecord.whole_weight ∧
    partSumRecord.shell_weight ≤ partSumRecord.whole_weight ∧
    ((validate partSumRecord).1 ≠ [] ∧ proceedsToInference partSumRecord = false) := by
  have h : partSumRecord.shucked_weight + partSumRecord.viscera_weight +
      partSumRecord.shell_weight > partSumRecord.whole_weight := by
    norm_num [partSumRecord]
  refine ⟨h, by norm_num [partSumRecord], by norm_num [partSumRecord],
    by norm_num [partSumRecord], C3_part_sum_blocks partSumRecord h⟩

/-- C4: a zero dimension together with positive whole weight makes validate
return a blocking error list containing the zero-dimension message, and
inference does not proceed. -/
theorem C4_zero_dimension_blocks (r : Record)
    (hd : r.length = 0 ∨ r.diameter = 0 ∨ r.height = 0)
    (hw : 0 < r.whole_weight) :
    zeroDimMsg ∈ (validate r).1 ∧ (validate r).1 ≠ [] ∧ proceedsToInference r = false := by
  have hnz : ¬(r.length = 0 ∧ r.diameter = 0 ∧ r.height = 0 ∧ r.whole_weight = 0) := by
    rintro ⟨-, -, -, h4⟩
    exact absurd h4 hw.ne'
  have hmem : zeroDimMsg ∈ (validate r).1 := by
    simp [validate, hnz, hd, hw]
  exact ⟨hmem, List.ne_nil_of_mem hmem, errors_block r (List.ne_nil_of_mem hmem)⟩

/-- Witness for C4 at the rejection example of the design document: length 0,
diameter two fifths, height three twentieths, whole weight four fifths. -/
theorem C4_zero_dimension_blocks_witness :
    (zeroLengthRecord.length = 0 ∨ zeroLengthRecord.diameter = 0 ∨
      zeroLengthRecord.height = 0) ∧
    0 < zeroLengthRecord.whole_weight ∧
    (zeroDimMsg ∈ (validate zeroLengthRecord).1 ∧ (validate zeroLengthRecord).1 ≠ [] ∧
      proceedsToInference zeroLengthRecord = false) := by
  have hw : (0:ℚ) < zeroLengthRecord.whole_weight := by norm_num [zeroLengthRecord]
  exact ⟨Or.inl rfl, hw, C4_zero_dimension_blocks zeroLengthRecord (Or.inl rfl) hw⟩

/-- C5: for any record with nonnegative whole weight (the lower bound of the
whole weight slider), the epsilon-guarded denominator is strictly positive,
hence nonzero, and build_features computes exactly the two guarded quotients of
lines 93 to 94; the computation is total even at whole weight 0. -/
theorem C5_build_features_total (r : Record) (h : 0 ≤ r.whole_weight) :
    0 < r.whole_weight + eps ∧ r.whole_weight + eps ≠ 0 ∧
    build_features r =
      (r.shell_weight / (r.whole_weight + eps), r.shucked_weight / (r.whole_weight + eps)) := by
  have heps : (0:ℚ) < eps := by norm_num [eps]
  have hpos : 0 < r.whole_weight + eps := by linarith
  exact ⟨hpos, hpos.ne', rfl⟩

/-- Witness for C5 at a record with whole weight exactly 0. -/
theorem C5_build_features_total_witness :
    0 ≤ zeroWholeRecord.whole_weight ∧
    (0 < zeroWholeRecord.whole_weight + eps ∧ zeroWholeRecord.whole_weight + eps ≠ 0 ∧
      build_features zeroWholeRecord =
        (zeroWholeRecord.shell_weight / (zeroWholeRecord.whole_weight + eps),
         zeroWholeRecord.shucked_weight / (zeroWholeRecord.whole_weight + eps))) := by
  have h : (0:ℚ) ≤ zeroWholeRecord.whole_weight := by norm_num [zeroWholeRecord]
  exact ⟨h, C5_build_features_total zeroWholeRecord h⟩

/-- C6: estimated_age is exactly the ring prediction plus 1.5 for every
prediction value, including zero and negative ones. -/
theorem C6_estimated_age_offset :
    (∀ y : ℚ, estimated_age y = y + 1.5) ∧
    estimated_age 0 = 1.5 ∧ estimated_age (-2) = -0.5 := by
  refine ⟨fun y => rfl, by norm_num [estimated_age], by norm_num [estimated_age]⟩

/-- C7: the life stage label of lines 133 to 141 is Young exactly when the age
is below 7, Adult exactly when the age is at least 7 and below 12, and Mature
exactly when the age is at least 12; the boundary ages 7 and 12 classify as
Adult and Mature. -/
theorem C7_life_stage_partition :
    (∀ age : ℚ,
      (lifeStage age = "Young" ↔ age < 7) ∧
      (lifeStage age = "Adult" ↔ 7 ≤ age ∧ age < 12) ∧
      (lifeStage age = "Mature" ↔ 12 ≤ age)) ∧
    lifeStage 7 = "Adult" ∧ lifeStage 12 = "Mature" := by
  refine ⟨?_, by norm_num [lifeStage], by norm_num [lifeStage]⟩
  intro age
  unfold lifeStage
  by_cases h7 : age < 7
  · rw [if_pos h7]
    refine ⟨iff_of_true rfl h7, iff_of_false (by decide) ?_, iff_of_false (by decide) ?_⟩
    · rintro ⟨hge, -⟩
      exact absurd h7 (not_lt.mpr hge)
    · intro hge
      exact absurd h7 (not_lt.mpr (by linarith))
  · rw [if_neg h7]
    by_cases h12 : age < 12
    · rw [if_pos h12]
      refine ⟨iff_of_false (by decide) h7, iff_of_true rfl ⟨not_lt.mp h7, h12⟩,
        iff_of_false (by decide) ?_⟩
      intro hge
      exact absurd h12 (not_lt.mpr hge)
    · rw [if_neg h12]
      refine ⟨iff_of_false (by decide) ?_, iff_of_false (by decide) ?_,
        iff_of_true rfl (not_lt.mp h12)⟩
      · intro hlt
        exact absurd hlt h7
      · rintro ⟨-, hlt⟩
        exact absurd hlt h12

/-- C8: the record whose only nonzero field is length one half passes the
single validation check of streamlit_app.py and even the spec-modelled
validate, so the handler proceeds to predict and to the formatter, where the
unguarded weight summary percentages of lines 262 to 263 divide by whole
weight 0 (Python raises ZeroDivisionError, modelled as none), while the guarded
meat_percentage of line 268 returns 0. -/
theorem C8_unguarded_percent_division :
    allZeroCheck lengthOnlyRecord = false ∧
    validate lengthOnlyRecord = ([], []) ∧
    runPredictHandler constModel lengthOnlyRecord = Outcome.predicted 10 ∧
    lengthOnlyRecord.whole_weight = 0 ∧
    weightSummaryPercents lengthOnlyRecord = none ∧
    meat_percentage lengthOnlyRecord = 0 := by
  refine ⟨?_, ?_, ?_, rfl, ?_, ?_⟩
  · simp [allZeroCheck, lengthOnlyRecord]
  · norm_num [validate, lengthOnlyRecord, eps]
  · norm_num [runPredictHandler, allZeroCheck, lengthOnlyRecord, constModel]
  · simp [weightSummaryPercents, lengthOnlyRecord]
  · simp [meat_percentage, lengthOnlyRecord]

/-- C9: the feature computation is a pure function of the shell, shucked and
whole weight fields alone: two records agreeing on those three fields yield
identical feature pairs, and recomputing on the same record yields an identical
result. -/
theorem C9_build_features_deterministic (r s : Record)
    (h1 : r.shell_weight = s.shell_weight)
    (h2 : r.shucked_weight = s.shucked_weight)
    (h3 : r.whole_weight = s.whole_weight) :
    build_features r = build_features s ∧ build_features r = build_features r := by
  constructor
  · simp [build_features, h1, h2, h3]
  · rfl

/-- Witness for C9 at the end to end example record and its variant with a
different length: the feature pairs coincide. -/
theorem C9_build_features_deterministic_witness :
    exampleRecord.length ≠ exampleRecordLong.length ∧
    exampleRecord.shell_weight = exampleRecordLong.shell_weight ∧
    exampleRecord.shucked_weight = exampleRecordLong.shucked_weight ∧
    exampleRecord.whole_weight = exampleRecordLong.whole_weight ∧
    (build_features exampleRecord = build_features exampleRecordLong ∧
      build_features exampleRecord = build_features exampleRecord) := by
  refine ⟨by norm_num [exampleRecord, exampleRecordLong], rfl, rfl, rfl,
    C9_build_features_deterministic exampleRecord exampleRecordLong rfl rfl rfl⟩

/-- C10: any record that fails the all-zero test reaches the model: the predict
handler returns the prediction computed by the model on the record and its two
derived features, for every model, so the validation of streamlit_app.py
accepts exactly the complement of the all-zero condition and records violating
the other plausibility rules still reach the model. -/
theorem C10_non_all_zero_reaches_model (m : Record → ℚ × ℚ → ℚ) (r : Record)
    (h : allZeroCheck r = false) :
    runPredictHandler m r = Outcome.predicted (m r (build_features r)) := by
  simp [runPredictHandler, h]

/-- Witness for C10 at a record that violates the part-weight, part-sum and
zero-dimension rules at once and is still predicted on. -/
theorem C10_non_all_zero_reaches_model_witness :
    allZeroCheck multiViolationRecord = false ∧
    multiViolationRecord.shucked_weight > multiViolationRecord.whole_weight ∧
    (multiViolationRecord.length = 0 ∨ multiViolationRecord.diameter = 0 ∨
      multiViolationRecord.height = 0) ∧
    0 < multiViolationRecord.whole_weight ∧
    runPredictHandler constModel multiViolationRecord =
      Outcome.predicted
        (constModel multiViolationRecord (build_features multiViolationRecord)) := by
  have h : allZeroCheck multiViolationRecord = false := by
    simp [allZeroCheck, multiViolationRecord]
  exact ⟨h, by norm_num [multiViolationRecord], Or.inl rfl,
    by norm_num [multiViolationRecord],
    C10_non_all_zero_reaches_model constModel multiViolationRecord h⟩

end Abalone
